import Mathlib

/-!
Shallow embedding of the retrieval-augmented document search component of
OmniFlow (`src/components/rag.py`): the index builder `build_rag_index` and
the hybrid retriever `search_my_documents`, together with theorems checking
the specification's claims against this embedding.

External collaborators (document loaders, embedding model, hybrid search
backend, rerank model) are modelled as oracle functions supplied in an
environment record; the python module's global mutable state (the cached
`LANCEDB_TABLE` handle and the persisted LanceDB table) is modelled as an
explicit state record threaded through the operations.
-/

namespace OmniFlow

/-- An embedding vector (`embeddings.embed_documents` / `embed_query` output).
Only its identity matters to the claims, never float arithmetic. -/
def Vec := List Int

deriving instance DecidableEq, Repr for Vec

/-- A loaded langchain document: `page_content` plus the `source` metadata
entry (absent metadata is modelled as `none`, matching
`t.metadata.get('source', 'N/A')`). -/
structure Doc where
  pageContent : String
  source : Option String
deriving DecidableEq, Repr

/-- One row of the LanceDB `documents` table: `{"text": ..., "source": ..., "vector": ...}`. -/
structure Row where
  text : String
  source : String
  vector : Vec
deriving DecidableEq, Repr

/-- The persisted LanceDB table named `documents`: its rows plus whether
`create_fts_index("text")` has been run on it (the full-text index that
enables hybrid search). The vector side of LanceDB is queryable as soon as
the rows exist, so `hasFts` is what distinguishes a fully built table. -/
structure Table where
  rows : List Row
  hasFts : Bool
deriving DecidableEq, Repr

/-- A table is fully built when its full-text index exists alongside its rows. -/
def Table.fullyBuilt (t : Table) : Bool := t.hasFts

/-- The module's mutable state: the persisted table under the fixed name
`documents` inside `./lancedb_data` (or `none` if never created), and the
process-global `LANCEDB_TABLE` handle (or `none`, e.g. after a restart). -/
structure RagState where
  db : Option Table
  handle : Option Table
deriving DecidableEq, Repr

/-- A file handed to `build_rag_index` (a streamlit upload: `.name` and
`.getvalue()` bytes, the latter modelled as a string). -/
structure UploadedFile where
  name : String
  content : String
deriving DecidableEq, Repr

/-- ASCII lowercasing of one character (`.lower()` on extensions). -/
def lowerChar (c : Char) : Char :=
  if 65 ≤ c.toNat ∧ c.toNat ≤ 90 then Char.ofNat (c.toNat + 32) else c

/-- Python `os.path.splitext(name)[-1].lower()`: the extension from the last dot of
the file name, lowercased; leading dots of the name do not start an
extension, and a dotless name has extension `""`. -/
def fileExt (name : String) : String :=
  let cs := name.toList
  let core := cs.dropWhile (· = '.')
  if core.contains '.' then
    let afterLast := (core.reverse.takeWhile (· ≠ '.')).reverse
    String.mk (('.' :: afterLast).map lowerChar)
  else ""

/-- Oracles for the builder's external collaborators, plus fault switches for
the two storage operations inside the `try` block. -/
structure BuildEnv where
  /-- Loader call (`PyPDFLoader` / `TextLoader` / `Docx2txtLoader` `.load()`): either the
  loaded documents or a raised exception's message. -/
  load : UploadedFile → Except String (List Doc)
  /-- Embedding call `embeddings.embed_documents`: one vector per input text. -/
  embed_documents : List String → List Vec
  /-- Whether `db.create_table(table_name, data=doc_data, mode="overwrite")`
  succeeds; on failure the old table is untouched and `createTableErr` is raised. -/
  createTableOk : Bool
  createTableErr : String
  /-- Whether `LANCEDB_TABLE.create_fts_index("text")` succeeds; on failure
  `ftsErr` is raised (the freshly overwritten table keeps no FTS index). -/
  ftsOk : Bool
  ftsErr : String

/-- Step 1 of `build_rag_index`: the loading loop. Each file is dispatched by
extension (`.pdf`, `.txt`, `.docx`; anything else hits `continue`), a loader
exception is caught and that file skipped, and surviving documents are
appended in order. -/
def loadFiles (load : UploadedFile → Except String (List Doc)) :
    List UploadedFile → List Doc
  | [] => []
  | f :: rest =>
    let ext := fileExt f.name
    if ext = ".pdf" ∨ ext = ".txt" ∨ ext = ".docx" then
      match load f with
      | .ok ds => ds ++ loadFiles load rest
      | .error _ => loadFiles load rest
    else loadFiles load rest

/-- Fuel-indexed splitting loop: emit a chunk of at most 512 characters,
then continue 412 characters further so consecutive chunks share a
100-character overlap. The fuel only bounds the recursion depth; any fuel of
at least `t.length` steps behaves identically (`splitTextGo_congr`). -/
def splitTextGo : Nat → List Char → List (List Char)
  | 0, t => [t]
  | fuel + 1, t =>
    if t.length ≤ 512 then [t]
    else t.take 512 :: splitTextGo fuel (t.drop 412)

/-- Modelled from the spec: `RecursiveCharacterTextSplitter(chunk_size=512,
chunk_overlap=100)` is third-party langchain code, absent from this
repository's sources. Following the spec's splitting rule (§3/§4.1 step 2):
chunks of at most 512 characters, consecutive chunks sharing a 100-character
overlap, so each new chunk starts 412 characters after the previous one; a
text of at most 512 characters is one single chunk. -/
def splitText (t : List Char) : List (List Char) :=
  splitTextGo t.length t

/-- Step 2 of `build_rag_index`: `text_splitter.split_documents(documents)`.
Each document's text is split into chunks, each chunk keeping its
document's `source` metadata. -/
def split_documents (docs : List Doc) : List Doc :=
  docs.flatMap fun d =>
    (splitText d.pageContent.toList).map fun c =>
      { pageContent := String.mk c, source := d.source }

/-- The `doc_data` construction: `{"text": t.page_content, "source":
t.metadata.get('source', 'N/A')}`. -/
def docDataOf (texts : List Doc) : List (String × String) :=
  texts.map fun t => (t.pageContent, t.source.getD "N/A")

/-- The builder `build_rag_index(uploaded_files)`: returns the python function's string
result paired with the updated module state. Mirrors the source: empty
upload check, the loading loop, the no-valid-documents check, chunking,
embedding, then the `try` block that overwrites the `documents` table and
creates its FTS index. -/
def build_rag_index (env : BuildEnv) (files : List UploadedFile)
    (s : RagState) : String × RagState :=
  if files = [] then ("Error: No files uploaded.", s)
  else
    let documents := loadFiles env.load files
    if documents = [] then ("Error: Could not load any valid documents.", s)
    else
      let texts := split_documents documents
      let doc_data := docDataOf texts
      let embedded_texts := env.embed_documents (doc_data.map Prod.fst)
      if env.createTableOk then
        let rows := (doc_data.zip embedded_texts).map fun p =>
          { text := p.1.1, source := p.1.2, vector := p.2 }
        if env.ftsOk then
          let t : Table := { rows := rows, hasFts := true }
          ("Success! Knowledge base built from " ++ toString texts.length ++
              " chunks. Hybrid Index Ready.",
            { db := some t, handle := some t })
        else
          let t : Table := { rows := rows, hasFts := false }
          ("Error building RAG index: " ++ env.ftsErr,
            { db := some t, handle := some t })
      else
        ("Error building RAG index: " ++ env.createTableErr, s)

/-! ## Hybrid retriever (`search_my_documents`) -/

/-- A hybrid-search hit as returned by
`LANCEDB_TABLE.search(...).to_list()`: its `"text"` and `"source"` fields. -/
structure Candidate where
  text : String
  source : String
deriving DecidableEq, Repr

/-- A FlashRank input passage: `{"id": str(i), "text": ..., "meta": {"source": ...}}`. -/
structure Passage where
  id : String
  text : String
  source : String
deriving DecidableEq, Repr

/-- A FlashRank output passage: the input passage with its relevance score
attached. Only the ordering of scores matters to the claims. -/
structure RankedPassage where
  id : String
  text : String
  source : String
  score : Int
deriving DecidableEq, Repr

/-- Forgetting a rerank score recovers the input passage. -/
def RankedPassage.toPassage (r : RankedPassage) : Passage :=
  { id := r.id, text := r.text, source := r.source }

/-- The search request built by
`.search(query_vector).query_type("hybrid").limit(10)`. -/
structure SearchRequest where
  vector : Vec
  queryType : String
  limit : Nat
deriving Repr

/-- The fixed width of the hybrid candidate set (`.limit(10)`). -/
def candidateLimit : Nat := 10

/-- The fixed final cutoff (`reranked_results[:3]`). -/
def rerankTopK : Nat := 3

/-- The request `search_my_documents` sends for a given query vector:
hybrid mode, limit 10. -/
def ragSearchRequest (qv : Vec) : SearchRequest :=
  { vector := qv, queryType := "hybrid", limit := candidateLimit }

/-- Oracles for the retriever's external collaborators. Each returns
`Except`: a raised exception's message lands in the function's generic
`except` handler. -/
structure SearchEnv where
  /-- Embedding call `embeddings.embed_query(query)`. -/
  embed_query : String → Except String Vec
  /-- Execution of a LanceDB search request against a table
  (`.to_list()` of the query builder). -/
  runHybrid : Table → SearchRequest → Except String (List Candidate)
  /-- Rerank call `ranker.rerank(RerankRequest(query=query, passages=passages))`. -/
  rerank : String → List Passage → Except String (List RankedPassage)

/-- The hybrid candidate retrieval step: the table is searched with the
fixed hybrid request. -/
def hybridStep (env : SearchEnv) (t : Table) (qv : Vec) :
    Except String (List Candidate) :=
  env.runHybrid t (ragSearchRequest qv)

/-- The passage list handed to FlashRank:
`[{"id": str(i), "text": res["text"], "meta": {"source": res["source"]}} for i, res in enumerate(initial_results)]`. -/
def mkPassagesFrom : Nat → List Candidate → List Passage
  | _, [] => []
  | i, c :: rest =>
    { id := toString i, text := c.text, source := c.source } ::
      mkPassagesFrom (i + 1) rest

/-- Python `enumerate` starts at index 0. -/
def mkPassages (initial : List Candidate) : List Passage :=
  mkPassagesFrom 0 initial

/-- The LLM-facing formatting loop over the top results:
`"Source ({source}):\n{text}\n-----------------\n"` appended per result to
the context header. -/
def formatContext (top : List RankedPassage) : String :=
  top.foldl
    (fun acc res =>
      acc ++ "Source (" ++ res.source ++ "):\n" ++ res.text ++
        "\n-----------------\n")
    "\n\n--- Context from Documents ---\n"

/-- The body of `search_my_documents`'s `try` block, after the table is
resolved: embed the query, hybrid-search, handle the empty candidate set,
rerank, truncate to the top 3, format. An `.error` is an exception reaching
the generic handler. -/
def searchBody (env : SearchEnv) (query : String) (t : Table) :
    Except String String := do
  let query_vector ← env.embed_query query
  let initial_results ← hybridStep env t query_vector
  if initial_results = [] then
    pure "No relevant information found in the documents."
  else do
    let passages := mkPassages initial_results
    let reranked_results ← env.rerank query passages
    let top_results := reranked_results.take rerankTopK
    pure (formatContext top_results)

/-- The retriever `search_my_documents(query)`: resolve the table (re-open the persisted
`documents` table when the global handle is lost, the bare `except` turning
any failure into the knowledge-base-not-found message), then run the `try`
body, the generic handler wrapping any raised exception. Returns the python
function's string result paired with the updated module state. -/
def search_my_documents (env : SearchEnv) (query : String) (s : RagState) :
    String × RagState :=
  match s.handle with
  | some t =>
    match searchBody env query t with
    | .ok msg => (msg, s)
    | .error e => ("Error during document search: " ++ e, s)
  | none =>
    match s.db with
    | none => ("Error: Knowledge base not found. Please upload files first.", s)
    | some t =>
      let s' : RagState := { s with handle := some t }
      match searchBody env query t with
      | .ok msg => (msg, s')
      | .error e => ("Error during document search: " ++ e, s')

/-! ## Concrete fixtures used by witnesses and counterexamples -/

/-- A supported, loadable upload. -/
def wFile : UploadedFile := { name := "a.txt", content := "hello" }

/-- An upload with an unsupported extension. -/
def wFileExe : UploadedFile := { name := "tool.exe", content := "MZ" }

/-- A supported upload that the loader rejects as corrupt. -/
def wFileBad : UploadedFile := { name := "bad.txt", content := "\x00" }

/-- The document the fixture loader extracts from readable files. -/
def wDoc : Doc := { pageContent := "hello world", source := some "a.txt" }

/-- A loader oracle that fails on `bad.txt` and succeeds elsewhere. -/
def wLoad : UploadedFile → Except String (List Doc) := fun f =>
  if f.name = "bad.txt" then .error "corrupt file" else .ok [wDoc]

/-- A builder environment in which every step succeeds. -/
def wBuildEnv : BuildEnv :=
  { load := wLoad
    embed_documents := fun ts => ts.map fun _ => ([7] : List Int)
    createTableOk := true, createTableErr := "create failed"
    ftsOk := true, ftsErr := "fts failed" }

/-- The all-good environment with `create_table` failing. -/
def wBuildEnvCtFail : BuildEnv := { wBuildEnv with createTableOk := false }

/-- The all-good environment with `create_fts_index` failing. -/
def wBuildEnvFtsFail : BuildEnv := { wBuildEnv with ftsOk := false }

/-- The all-good environment with a loader that rejects every file. -/
def wBuildEnvLoadFail : BuildEnv :=
  { wBuildEnv with load := fun _ => .error "corrupt file" }

/-- A previously committed, fully built table. -/
def wTableOld : Table :=
  { rows := [{ text := "old", source := "old.txt", vector := [1] }]
    hasFts := true }

/-- State in which `wTableOld` is committed and cached. -/
def wState : RagState := { db := some wTableOld, handle := some wTableOld }

/-- State with a committed table but no cached handle (post-restart). -/
def wStateNoHandle : RagState := { db := some wTableOld, handle := none }

/-- State of a never-built deployment. -/
def wStateEmpty : RagState := { db := none, handle := none }

/-- The fixture hybrid candidate set. -/
def wCands : List Candidate :=
  [{ text := "alpha", source := "a.txt" }, { text := "beta", source := "b.txt" }]

/-- The fixture rerank output: the two passages reversed, scores descending. -/
def wRerankFn : String → List Passage → Except String (List RankedPassage) :=
  fun _ ps =>
    .ok ((ps.reverse.zip [(9 : Int), 5]).map fun p =>
      { id := p.1.id, text := p.1.text, source := p.1.source, score := p.2 })

/-- The value `wRerankFn` produces on the fixture candidates: a permutation
of the passages with descending scores attached. -/
def wReranked : List RankedPassage :=
  [{ id := "1", text := "beta", source := "b.txt", score := 9 },
   { id := "0", text := "alpha", source := "a.txt", score := 5 }]

/-- A retriever environment in which every step succeeds. -/
def wSearchEnv : SearchEnv :=
  { embed_query := fun _ => .ok [1]
    runHybrid := fun _ _ => .ok wCands
    rerank := wRerankFn }

/-- The all-good retriever environment with zero hybrid hits. -/
def wSearchEnvNoHits : SearchEnv :=
  { wSearchEnv with runHybrid := fun _ _ => .ok [] }

/-- The all-good retriever environment with a failing rerank model. -/
def wSearchEnvRerankFail : SearchEnv :=
  { wSearchEnv with rerank := fun _ _ => .error "rerank down" }

/-! ## Helper lemmas -/

theorem splitTextGo_congr :
    ∀ f₁ f₂ t, t.length ≤ 412 * f₁ + 512 → t.length ≤ 412 * f₂ + 512 →
      splitTextGo f₁ t = splitTextGo f₂ t := by
  intro f₁
  induction f₁ with
  | zero =>
    intro f₂ t h₁ _
    cases f₂ with
    | zero => rfl
    | succ g =>
      simp only [splitTextGo]
      rw [if_pos (by omega)]
  | succ f ih =>
    intro f₂ t h₁ h₂
    cases f₂ with
    | zero =>
      simp only [splitTextGo]
      rw [if_pos (by omega)]
    | succ g =>
      simp only [splitTextGo]
      by_cases h : t.length ≤ 512
      · rw [if_pos h, if_pos h]
      · rw [if_neg h, if_neg h]
        refine congrArg _ (ih g (t.drop 412) ?_ ?_) <;>
          simp only [List.length_drop] <;> omega

/-- The splitting loop satisfies the intended recursion: a text of at most
512 characters is a single chunk, otherwise the first 512 characters form a
chunk and splitting resumes 412 characters in. -/
theorem splitText_eq (t : List Char) :
    splitText t =
      if t.length ≤ 512 then [t] else t.take 512 :: splitText (t.drop 412) := by
  by_cases h : t.length ≤ 512
  · rw [if_pos h]
    unfold splitText
    rw [splitTextGo_congr t.length 0 t (by omega) (by omega)]
    rfl
  · rw [if_neg h]
    unfold splitText
    obtain ⟨n, hn⟩ : ∃ n, t.length = n + 1 := ⟨t.length - 1, by omega⟩
    rw [hn]
    simp only [splitTextGo]
    rw [if_neg (by omega)]
    refine congrArg _
      (splitTextGo_congr n ((t.drop 412).length) (t.drop 412) ?_ ?_) <;>
      simp only [List.length_drop] <;> omega

/-- Closed form of the chunk boundaries: the `i`-th chunk is exactly the 512
characters starting at offset `412 * i` of the input text. -/
theorem splitText_get? :
    ∀ (n : Nat) (t : List Char), t.length ≤ n → ∀ i c,
      (splitText t).get? i = some c → c = (t.drop (412 * i)).take 512 := by
  intro n
  induction n with
  | zero =>
    intro t ht i c hc
    rw [splitText_eq, if_pos (by omega)] at hc
    cases i with
    | zero =>
      simp only [List.get?] at hc
      cases hc
      rw [Nat.mul_zero, List.drop_zero, List.take_of_length_le (by omega)]
    | succ j => simp [List.get?] at hc
  | succ m ih =>
    intro t ht i c hc
    rw [splitText_eq] at hc
    by_cases h : t.length ≤ 512
    · rw [if_pos h] at hc
      cases i with
      | zero =>
        simp only [List.get?] at hc
        cases hc
        rw [Nat.mul_zero, List.drop_zero, List.take_of_length_le h]
      | succ j => simp [List.get?] at hc
    · rw [if_neg h] at hc
      cases i with
      | zero =>
        simp only [List.get?] at hc
        cases hc
        rw [Nat.mul_zero, List.drop_zero]
      | succ j =>
        simp only [List.get?] at hc
        have h2 := ih (t.drop 412) (by simp only [List.length_drop]; omega) j c hc
        have h3 : 412 * (j + 1) = 412 + 412 * j := by ring
        rw [h2, List.drop_drop, h3]

theorem loadFiles_append (load : UploadedFile → Except String (List Doc)) :
    ∀ fs1 fs2, loadFiles load (fs1 ++ fs2) =
      loadFiles load fs1 ++ loadFiles load fs2 := by
  intro fs1 fs2
  induction fs1 with
  | nil => simp [loadFiles]
  | cons f rest ih =>
    simp only [List.cons_append, loadFiles]
    by_cases hext : fileExt f.name = ".pdf" ∨ fileExt f.name = ".txt" ∨
        fileExt f.name = ".docx"
    · rw [if_pos hext, if_pos hext]
      cases load f with
      | ok ds => simp [ih]
      | error e => simp [ih]
    · rw [if_neg hext, if_neg hext]
      exact ih

theorem mem_mkPassagesFrom {p : Passage} :
    ∀ (i : Nat) (l : List Candidate), p ∈ mkPassagesFrom i l →
      (p.text, p.source) ∈ l.map fun c => (c.text, c.source) := by
  intro i l
  induction l generalizing i with
  | nil => simp [mkPassagesFrom]
  | cons c rest ih =>
    intro hp
    simp only [mkPassagesFrom, List.mem_cons] at hp
    rcases hp with hp | hp
    · subst hp
      simp
    · simp only [List.map_cons, List.mem_cons]
      exact Or.inr (ih (i + 1) hp)

theorem except_bind_ok {α β ε : Type} (a : α) (f : α → Except ε β) :
    (Except.ok a : Except ε α) >>= f = f a := rfl

theorem except_bind_error {α β ε : Type} (e : ε) (f : α → Except ε β) :
    (Except.error e : Except ε α) >>= f = (Except.error e : Except ε β) := rfl

/-! ## Claims -/

/-- Claim C10: calling `build_rag_index` with an empty upload list returns
the "No files uploaded" error immediately and unconditionally — the result
does not depend on any loader, embedding or storage oracle, so no such work
is performed — the state (active handle and persisted table) is unchanged,
and this error is distinct from the no-valid-documents failure. -/
theorem claim_C10_empty_upload (env : BuildEnv) (s : RagState) :
    build_rag_index env [] s = ("Error: No files uploaded.", s) ∧
      ("Error: No files uploaded." : String) ≠
        "Error: Could not load any valid documents." :=
  ⟨rfl, by decide⟩

/-- Claim C9: the candidate-retrieval step of `search_my_documents` issues
exactly the request with query type `"hybrid"` (not vector-only or
keyword-only) and the fixed candidate width 10, which over-fetches relative
to the final result size 3. -/
theorem claim_C9_hybrid_request (env : SearchEnv) (t : Table) (qv : Vec) :
    hybridStep env t qv =
        env.runHybrid t { vector := qv, queryType := "hybrid", limit := 10 } ∧
      (ragSearchRequest qv).queryType = "hybrid" ∧
      (ragSearchRequest qv).limit = candidateLimit ∧
      candidateLimit = 10 ∧ rerankTopK = 3 ∧ rerankTopK < candidateLimit :=
  ⟨rfl, rfl, rfl, rfl, rfl, by decide⟩

/-- Claim C4: with no cached handle and no persisted `documents` table to
open, `search_my_documents` returns the knowledge-base-not-found message
with the state unchanged, and that message is distinct from both the empty
successful result and the generic search-error shape. -/
theorem claim_C4_kb_not_found (env : SearchEnv) (q : String) (s : RagState)
    (hh : s.handle = none) (hd : s.db = none) :
    search_my_documents env q s =
        ("Error: Knowledge base not found. Please upload files first.", s) ∧
      ("Error: Knowledge base not found. Please upload files first." : String) ≠
        "No relevant information found in the documents." := by
  obtain ⟨db, handle⟩ := s
  simp only at hh hd
  subst hh
  subst hd
  exact ⟨rfl, by decide⟩

/-- Claim C4 witness: a never-built deployment. -/
theorem claim_C4_witness :
    search_my_documents wSearchEnv "What is the capital of France?" wStateEmpty =
        ("Error: Knowledge base not found. Please upload files first.",
          wStateEmpty) ∧
      ("Error: Knowledge base not found. Please upload files first." : String) ≠
        "No relevant information found in the documents." :=
  claim_C4_kb_not_found wSearchEnv "What is the capital of France?" wStateEmpty
    rfl rfl

/-- Claim C5: when the table resolves but the hybrid search returns zero
candidates, `search_my_documents` succeeds with the fixed
no-relevant-information message — `searchBody` takes the `.ok` branch, not
an error — and the state is unchanged. -/
theorem claim_C5_empty_candidates (env : SearchEnv) (q : String)
    (s : RagState) (t : Table) (qv : Vec)
    (hh : s.handle = some t)
    (hq : env.embed_query q = .ok qv)
    (hs : env.runHybrid t (ragSearchRequest qv) = .ok []) :
    searchBody env q t = .ok "No relevant information found in the documents." ∧
      search_my_documents env q s =
        ("No relevant information found in the documents.", s) := by
  have hbody :
      searchBody env q t =
        .ok "No relevant information found in the documents." := by
    unfold searchBody hybridStep
    rw [hq, except_bind_ok, hs, except_bind_ok, if_pos rfl]
    rfl
  refine ⟨hbody, ?_⟩
  obtain ⟨db, handle⟩ := s
  simp only at hh
  subst hh
  simp only [search_my_documents, hbody]

/-- Claim C5 witness: a cached table with zero hybrid hits. -/
theorem claim_C5_witness :
    searchBody wSearchEnvNoHits "unrelated query" wTableOld =
        .ok "No relevant information found in the documents." ∧
      search_my_documents wSearchEnvNoHits "unrelated query" wState =
        ("No relevant information found in the documents.", wState) :=
  claim_C5_empty_candidates wSearchEnvNoHits "unrelated query" wState wTableOld
    [1] rfl rfl rfl

/-- Claim C3 counterexample: with a cached table, two hybrid candidates and
a failing rerank model, the whole query fails — `searchBody` takes the
`.error` branch and `search_my_documents` returns the generic search-error
message, not the unranked hybrid top 3 and not any successful result. -/
theorem claim_C3_counterexample :
    searchBody wSearchEnvRerankFail "q" wTableOld = .error "rerank down" ∧
      search_my_documents wSearchEnvRerankFail "q" wState =
        ("Error during document search: rerank down", wState) ∧
      (search_my_documents wSearchEnvRerankFail "q" wState).1 ≠
        formatContext ((mkPassages wCands).take rerankTopK |>.map
          fun p => { id := p.id, text := p.text, source := p.source, score := 0 }) := by
  refine ⟨rfl, by decide, by decide⟩

/-- Claim C3 amended: a rerank failure is caught by the function's blanket
exception handler and surfaces as the generic "Error during document
search" result — the whole query fails; there is no degradation to the
unranked hybrid top 3. -/
theorem claim_C3_amended (env : SearchEnv) (q : String) (s : RagState)
    (t : Table) (qv : Vec) (initial : List Candidate) (e : String)
    (hh : s.handle = some t)
    (hq : env.embed_query q = .ok qv)
    (hs : env.runHybrid t (ragSearchRequest qv) = .ok initial)
    (hne : initial ≠ [])
    (hr : env.rerank q (mkPassages initial) = .error e) :
    searchBody env q t = .error e ∧
      search_my_documents env q s =
        ("Error during document search: " ++ e, s) := by
  have hbody : searchBody env q t = .error e := by
    unfold searchBody hybridStep
    rw [hq, except_bind_ok, hs, except_bind_ok, if_neg hne]
    simp only [hr, except_bind_error]
  refine ⟨hbody, ?_⟩
  obtain ⟨db, handle⟩ := s
  simp only at hh
  subst hh
  simp only [search_my_documents, hbody]

/-- Claim C3 amended witness: the counterexample scenario run through the
amended theorem. -/
theorem claim_C3_amended_witness :
    searchBody wSearchEnvRerankFail "q" wTableOld = .error "rerank down" ∧
      search_my_documents wSearchEnvRerankFail "q" wState =
        ("Error during document search: rerank down", wState) :=
  claim_C3_amended wSearchEnvRerankFail "q" wState wTableOld [1] wCands
    "rerank down" rfl rfl rfl (by decide) rfl

/-- Claim C2: when the rerank oracle returns a permutation of its input
passages (the rerank provider's contract, §6), the result block is formatted
from a truncation-to-3 of that permutation, and every returned passage's
`text`/`source` pair was present among the hybrid candidates — provenance is
carried through, never lost or recomputed. -/
theorem claim_C2_rerank_permutation (env : SearchEnv) (q : String)
    (t : Table) (qv : Vec) (initial : List Candidate)
    (reranked : List RankedPassage)
    (hq : env.embed_query q = .ok qv)
    (hs : env.runHybrid t (ragSearchRequest qv) = .ok initial)
    (hne : initial ≠ [])
    (hr : env.rerank q (mkPassages initial) = .ok reranked)
    (hperm : (reranked.map RankedPassage.toPassage).Perm (mkPassages initial)) :
    searchBody env q t = .ok (formatContext (reranked.take rerankTopK)) ∧
      ∀ r ∈ reranked.take rerankTopK,
        (r.text, r.source) ∈ initial.map fun c => (c.text, c.source) := by
  constructor
  · unfold searchBody hybridStep
    rw [hq, except_bind_ok, hs, except_bind_ok, if_neg hne]
    simp only [hr, except_bind_ok]
    rfl
  · intro r hrm
    have h1 : r ∈ reranked := List.mem_of_mem_take hrm
    have h2 : r.toPassage ∈ reranked.map RankedPassage.toPassage :=
      List.mem_map_of_mem _ h1
    exact mem_mkPassagesFrom 0 initial (hperm.mem_iff.mp h2)

/-- Claim C2 witness: the fixture run — two candidates, reversed by the
rerank oracle. -/
theorem claim_C2_witness :
    searchBody wSearchEnv "q" wTableOld =
        .ok (formatContext (wReranked.take rerankTopK)) ∧
      ∀ r ∈ wReranked.take rerankTopK,
        (r.text, r.source) ∈ wCands.map fun c => (c.text, c.source) :=
  claim_C2_rerank_permutation wSearchEnv "q" wTableOld [1] wCands wReranked
    rfl rfl (by decide) rfl (by decide)

/-- Claim C6: when the rerank oracle additionally returns its passages in
descending score order (its contract, §6), `search_my_documents` keeps
exactly the first 3 of them — a fixed cutoff: the kept list has length
`min 3 n`, is itself descending, every kept score dominates every dropped
score, and truncation commutes with projecting out `text`/`source`, so both
fields are intact. -/
theorem claim_C6_top3_cutoff (env : SearchEnv) (q : String)
    (t : Table) (qv : Vec) (initial : List Candidate)
    (reranked : List RankedPassage)
    (hq : env.embed_query q = .ok qv)
    (hs : env.runHybrid t (ragSearchRequest qv) = .ok initial)
    (hne : initial ≠ [])
    (hr : env.rerank q (mkPassages initial) = .ok reranked)
    (hsorted :
      List.Pairwise (fun a b : RankedPassage => b.score ≤ a.score) reranked) :
    searchBody env q t = .ok (formatContext (reranked.take rerankTopK)) ∧
      (reranked.take rerankTopK).length = min rerankTopK reranked.length ∧
      List.Pairwise (fun a b : RankedPassage => b.score ≤ a.score)
        (reranked.take rerankTopK) ∧
      (∀ a ∈ reranked.take rerankTopK, ∀ b ∈ reranked.drop rerankTopK,
        b.score ≤ a.score) ∧
      (reranked.take rerankTopK).map (fun r => (r.text, r.source)) =
        (reranked.map fun r => (r.text, r.source)).take rerankTopK := by
  refine ⟨?_, ?_, ?_, ?_, ?_⟩
  · unfold searchBody hybridStep
    rw [hq, except_bind_ok, hs, except_bind_ok, if_neg hne]
    simp only [hr, except_bind_ok]
    rfl
  · exact List.length_take rerankTopK reranked
  · exact List.Pairwise.sublist (List.take_sublist rerankTopK reranked) hsorted
  · have hsplit := hsorted
    rw [← List.take_append_drop rerankTopK reranked] at hsplit
    exact (List.pairwise_append.mp hsplit).2.2
  · exact List.map_take _ reranked rerankTopK

/-- Claim C6 witness: the fixture run, whose rerank output is descending. -/
theorem claim_C6_witness :
    searchBody wSearchEnv "q" wTableOld =
        .ok (formatContext (wReranked.take rerankTopK)) ∧
      (wReranked.take rerankTopK).length = min rerankTopK wReranked.length ∧
      List.Pairwise (fun a b : RankedPassage => b.score ≤ a.score)
        (wReranked.take rerankTopK) ∧
      (∀ a ∈ wReranked.take rerankTopK, ∀ b ∈ wReranked.drop rerankTopK,
        b.score ≤ a.score) ∧
      (wReranked.take rerankTopK).map (fun r => (r.text, r.source)) =
        (wReranked.map fun r => (r.text, r.source)).take rerankTopK :=
  claim_C6_top3_cutoff wSearchEnv "q" wTableOld [1] wCands wReranked
    rfl rfl (by decide) rfl (by decide)

/-- Claim C7: file-granularity fault tolerance of the load step: a file with
an unsupported extension is skipped silently, a file whose loader raises is
caught and omitted while the remaining files are still processed (the loaded
corpus is as if that file were absent), and when no document loads at all,
`build_rag_index` fails with the no-valid-documents error and leaves the
state unchanged — no table is produced. -/
theorem claim_C7_load_tolerance
    (load : UploadedFile → Except String (List Doc))
    (f : UploadedFile) (fs1 fs2 : List UploadedFile)
    (env : BuildEnv) (files : List UploadedFile) (s : RagState) :
    (¬(fileExt f.name = ".pdf" ∨ fileExt f.name = ".txt" ∨
        fileExt f.name = ".docx") →
      loadFiles load (fs1 ++ f :: fs2) = loadFiles load (fs1 ++ fs2)) ∧
    (∀ err, load f = .error err →
      loadFiles load (fs1 ++ f :: fs2) = loadFiles load (fs1 ++ fs2)) ∧
    (files ≠ [] → loadFiles env.load files = [] →
      build_rag_index env files s =
        ("Error: Could not load any valid documents.", s)) := by
  have hstep : loadFiles load [f] = [] →
      loadFiles load (fs1 ++ f :: fs2) = loadFiles load (fs1 ++ fs2) := by
    intro h
    have e1 : fs1 ++ f :: fs2 = fs1 ++ [f] ++ fs2 := by simp
    rw [e1, loadFiles_append load (fs1 ++ [f]) fs2,
      loadFiles_append load fs1 [f], h, List.append_nil,
      ← loadFiles_append load fs1 fs2]
  refine ⟨?_, ?_, ?_⟩
  · intro hext
    apply hstep
    simp only [loadFiles]
    rw [if_neg hext]
  · intro err herr
    apply hstep
    simp only [loadFiles, herr, ite_self]
  · intro hne hempty
    unfold build_rag_index
    rw [if_neg hne]
    simp only [hempty]
    rw [if_pos trivial]

/-- Claim C7 witness: an unsupported `.exe` upload, a corrupt `.txt` upload
next to a valid one, and a build in which every loader call fails. -/
theorem claim_C7_witness :
    loadFiles wLoad (wFileExe :: [wFile]) = loadFiles wLoad [wFile] ∧
      loadFiles wLoad (wFileBad :: [wFile]) = loadFiles wLoad [wFile] ∧
      build_rag_index wBuildEnvLoadFail [wFileBad] wStateEmpty =
        ("Error: Could not load any valid documents.", wStateEmpty) :=
  ⟨(claim_C7_load_tolerance wLoad wFileExe [] [wFile] wBuildEnvLoadFail
      [wFileBad] wStateEmpty).1 (by decide),
    (claim_C7_load_tolerance wLoad wFileBad [] [wFile] wBuildEnvLoadFail
      [wFileBad] wStateEmpty).2.1 "corrupt file" rfl,
    (claim_C7_load_tolerance wLoad wFileBad [] [wFile] wBuildEnvLoadFail
      [wFileBad] wStateEmpty).2.2 (by decide) rfl⟩

/-- Claim C1 counterexample: starting from a committed, fully built table,
a build in which embedding succeeded but FTS-index creation fails returns an
error while the persisted `documents` table has already been replaced — it
exists but is not fully built (an observable intermediate state), and the
previously committed table is gone rather than remaining active. -/
theorem claim_C1_counterexample :
    (build_rag_index wBuildEnvFtsFail [wFile] wState).1 =
        "Error building RAG index: fts failed" ∧
      ((build_rag_index wBuildEnvFtsFail [wFile] wState).2.db.map
        Table.fullyBuilt) = some false ∧
      (build_rag_index wBuildEnvFtsFail [wFile] wState).2.db ≠
        some wTableOld ∧
      wState.db = some wTableOld ∧ wTableOld.fullyBuilt = true :=
  ⟨by decide, by decide, by decide, rfl, rfl⟩

/-- Claim C1 amended: rebuild is not all-or-nothing. If `create_table`
itself fails, the build fails with the previous state untouched; if both
storage steps succeed, the committed table is fully built; but if FTS-index
creation fails after the table was created with `mode="overwrite"`, the
build returns an error while a table lacking its full-text index has already
replaced the previous table and is installed as the active handle. -/
theorem claim_C1_amended (env : BuildEnv) (files : List UploadedFile)
    (s : RagState)
    (hfiles : files ≠ []) (hdocs : loadFiles env.load files ≠ []) :
    (env.createTableOk = false →
      build_rag_index env files s =
        ("Error building RAG index: " ++ env.createTableErr, s)) ∧
    (env.createTableOk = true → env.ftsOk = false →
      (build_rag_index env files s).1 =
          "Error building RAG index: " ++ env.ftsErr ∧
        ((build_rag_index env files s).2.db.map Table.fullyBuilt) =
          some false ∧
        (build_rag_index env files s).2.handle =
          (build_rag_index env files s).2.db) ∧
    (env.createTableOk = true → env.ftsOk = true →
      ((build_rag_index env files s).2.db.map Table.fullyBuilt) =
          some true ∧
        (build_rag_index env files s).2.handle =
          (build_rag_index env files s).2.db) := by
  refine ⟨?_, ?_, ?_⟩
  · intro hct
    unfold build_rag_index
    rw [if_neg hfiles]
    simp only []
    rw [if_neg hdocs, hct]
    simp
  · intro hct hfts
    unfold build_rag_index
    rw [if_neg hfiles]
    simp only []
    rw [if_neg hdocs, hct, hfts]
    simp [Table.fullyBuilt]
  · intro hct hfts
    unfold build_rag_index
    rw [if_neg hfiles]
    simp only []
    rw [if_neg hdocs, hct, hfts]
    simp [Table.fullyBuilt]

/-- Claim C1 amended witness: the three storage outcomes on the fixture
build. -/
theorem claim_C1_amended_witness :
    build_rag_index wBuildEnvCtFail [wFile] wState =
        ("Error building RAG index: create failed", wState) ∧
      ((build_rag_index wBuildEnvFtsFail [wFile] wState).1 =
          "Error building RAG index: fts failed" ∧
        ((build_rag_index wBuildEnvFtsFail [wFile] wState).2.db.map
          Table.fullyBuilt) = some false ∧
        (build_rag_index wBuildEnvFtsFail [wFile] wState).2.handle =
          (build_rag_index wBuildEnvFtsFail [wFile] wState).2.db) ∧
      (((build_rag_index wBuildEnv [wFile] wState).2.db.map
          Table.fullyBuilt) = some true ∧
        (build_rag_index wBuildEnv [wFile] wState).2.handle =
          (build_rag_index wBuildEnv [wFile] wState).2.db) :=
  ⟨(claim_C1_amended wBuildEnvCtFail [wFile] wState (by decide)
      (by decide)).1 rfl,
    (claim_C1_amended wBuildEnvFtsFail [wFile] wState (by decide)
      (by decide)).2.1 rfl rfl,
    (claim_C1_amended wBuildEnv [wFile] wState (by decide)
      (by decide)).2.2 rfl rfl⟩

/-- Claim C8: splitting (modelled from the spec: chunk size 512, overlap
100) is deterministic — the `i`-th chunk is fully determined by the input
text as the 512 characters starting at offset `412 * i`, so equal texts
always give equal chunk boundaries — adjacent chunks share exactly the
100-character overlap content, and a text shorter than the chunk size
yields exactly one chunk. -/
theorem claim_C8_split_deterministic (t : List Char) (i : Nat)
    (c₁ c₂ : List Char) :
    (t.length < 512 → splitText t = [t]) ∧
    ((splitText t).get? i = some c₁ → c₁ = (t.drop (412 * i)).take 512) ∧
    ((splitText t).get? i = some c₁ → (splitText t).get? (i + 1) = some c₂ →
      c₁.drop 412 = c₂.take 100) := by
  refine ⟨?_, ?_, ?_⟩
  · intro h
    rw [splitText_eq, if_pos (Nat.le_of_lt h)]
  · exact splitText_get? t.length t le_rfl i c₁
  · intro h1 h2
    have e1 := splitText_get? t.length t le_rfl i c₁ h1
    have e2 := splitText_get? t.length t le_rfl (i + 1) c₂ h2
    have e3 : 412 * (i + 1) = 412 + 412 * i := by ring
    rw [e1, e2, e3, List.drop_take, List.drop_drop, List.take_take]
    norm_num
    rw [Nat.add_comm (412 * i) 412]

set_option maxRecDepth 4096 in
/-- Claim C8 witness: a 100-character text is one chunk; on a 600-character
text the first chunk is characters 0–511 and it shares its final 100
characters with the head of the second chunk. -/
theorem claim_C8_witness :
    splitText (List.replicate 100 'a') = [List.replicate 100 'a'] ∧
      List.replicate 512 'a' =
        ((List.replicate 600 'a').drop (412 * 0)).take 512 ∧
      (List.replicate 512 'a').drop 412 =
        (((List.replicate 600 'a').drop 412).take 512).take 100 :=
  ⟨(claim_C8_split_deterministic (List.replicate 100 'a') 0 [] []).1
      (by decide),
    (claim_C8_split_deterministic (List.replicate 600 'a') 0
      (List.replicate 512 'a') []).2.1 (by decide),
    (claim_C8_split_deterministic (List.replicate 600 'a') 0
      (List.replicate 512 'a')
      (((List.replicate 600 'a').drop 412).take 512)).2.2
      (by decide) (by decide)⟩

end OmniFlow
